import Mathlib

/-!
Verification of the MindCore Discord counseling bot
(`src/discordbot.py`, `src/config.py`) against its natural-language
specification.

The embedding below translates the program's data model and operations
into executable Lean definitions:

* `natStr` renders a natural number in decimal, as Python string
  interpolation renders the (nonnegative) platform ids.
* `lowerStr`, `trimStr`, `replaceStr` model Python's `str.lower`,
  `str.strip` and `str.replace` on the ASCII/whitespace fragment the
  program exercises (command tokens are ASCII; the katakana reset token
  has no case).
* `Chan`, `Author`, `Message`, `Interaction` model the platform objects
  the handlers inspect.  Every concrete Discord channel object carries an
  `id`, so the `getattr(channel, "id", None)` fallback of the source is
  represented by a channel that always has an id.
* `CounselingAgent` state (`_sessions`) is an association list from
  session key to `ChatSession`; the remote Gemini call is an explicit
  `RemoteOutcome` input.
* `onMessage` is the `on_message` dispatcher (lines 218-285), returning
  `none` exactly where the Python handler would raise an uncaught
  exception (`message.guild.id` on a guild-less non-DM channel), and
  otherwise the updated registry, the updated session store, and the
  trace of outbound sends / replies / generation calls.
* the scheduler model (`GenTask`, `GenStep`, `Reachable`) embeds the
  asyncio semantics of `CounselingAgent.generate` (lines 56-72): the
  synchronous `_get_session` prefix runs atomically on the event loop,
  the `await asyncio.to_thread(_invoke)` suspension starts the remote
  call with no per-key lock, and the call later finishes.
-/

namespace MindCore

/-! ## Decimal rendering of ids (Python string interpolation of an int) -/

/-- Decimal digit characters of `n`, most significant first.  The first
argument is fuel so that the definition is structurally recursive and
computes by kernel reduction; `natCharsAux f n` is the digit list of `n`
whenever `n ≤ f` (see `natCharsAux_fuel`). -/
def natCharsAux : Nat → Nat → List Char
  | 0, _ => []
  | f + 1, n =>
    if n = 0 then [] else natCharsAux f (n / 10) ++ [Nat.digitChar (n % 10)]

/-- Digit characters of `n`, most significant first (empty for `0`). -/
def natChars (n : Nat) : List Char := natCharsAux n n

/-- Python `str(n)` for a nonnegative int: the decimal rendering used by
the f-strings that build session keys. -/
def natStr (n : Nat) : String :=
  if n = 0 then "0" else ⟨natChars n⟩

/-! ## Python string primitives on the fragment the program exercises -/

/-- ASCII lower-casing of one character: Python `str.lower` on the ASCII
letters that make up the command tokens (non-ASCII characters, including
the katakana reset token, are unchanged by `str.lower` as well). -/
def lowerChar (c : Char) : Char :=
  if 'A' ≤ c ∧ c ≤ 'Z' then Char.ofNat (c.toNat + 32) else c

/-- Python `str.lower` (ASCII fragment). -/
def lowerStr (s : String) : String := ⟨s.data.map lowerChar⟩

/-- Whitespace recognized by `str.strip` (the kinds a chat message can
actually carry). -/
def isWs (c : Char) : Bool := c = ' ' ∨ c = '\t' ∨ c = '\n' ∨ c = '\r'

/-- Python `str.strip()`: drop leading and trailing whitespace. -/
def trimStr (s : String) : String :=
  ⟨((s.data.dropWhile isWs).reverse.dropWhile isWs).reverse⟩

/-- Python `str.replace`: replace every non-overlapping occurrence of
`pat`, scanning left to right.  Fuel-recursive so that it computes by
kernel reduction; fuel at least the length of the subject suffices, and
the patterns the program uses are never empty. -/
def replaceAux (pat rep : List Char) : Nat → List Char → List Char
  | 0, l => l
  | _ + 1, [] => []
  | f + 1, c :: rest =>
    if pat ≠ [] ∧ pat.isPrefixOf (c :: rest) then
      rep ++ replaceAux pat rep f ((c :: rest).drop pat.length)
    else
      c :: replaceAux pat rep f rest

/-- Python `s.replace(pat, rep)`. -/
def replaceStr (s pat rep : String) : String :=
  ⟨replaceAux pat.data rep.data s.data.length s.data⟩

/-! ## Platform objects inspected by the handlers -/

/-- The `guild_permissions` object of a guild member. -/
structure Perms where
  manage_channels : Bool
deriving DecidableEq

/-- A message author / interaction user.  `guild_permissions` is `none`
for a plain `User` object outside a guild, mirroring
`getattr(actor, "guild_permissions", None)`. -/
structure Author where
  bot : Bool
  id : Nat
  guild_permissions : Option Perms
deriving DecidableEq

/-- A messageable channel: a `discord.DMChannel` or any other channel
object.  Every concrete Discord channel object carries an integer `id`,
so the non-DM variant always has one. -/
inductive Chan
  | dm
  | other (id : Nat)
deriving DecidableEq

/-- The fields of `discord.Message` that `on_message` reads.
`guild` is `None` for messages outside a guild; `mentionsSelf` records
whether `client.user` occurs in `message.mentions`. -/
structure Message where
  author : Author
  channel : Chan
  guild : Option Nat
  content : String
  mentionsSelf : Bool
deriving DecidableEq

/-- The bot's own user (`client.user`), populated once logged in. -/
structure ClientUser where
  id : Nat
  name : String
deriving DecidableEq

/-- The fields of `discord.Interaction` that the slash handlers read;
`interaction.channel` can be `None`. -/
structure Interaction where
  channel : Option Chan
  user : Author
deriving DecidableEq

/-- Source `_has_manage_channels` (lines 88-90):
`bool(permissions and permissions.manage_channels)` after
`getattr(actor, "guild_permissions", None)`. -/
def hasManage (actor : Author) : Bool :=
  match actor.guild_permissions with
  | none => false
  | some p => p.manage_channels

/-- Source `_is_allowed_channel` (lines 93-96): true for a DM channel,
otherwise membership of the channel id in `allowed_channel_ids`. -/
def is_allowed_channel (reg : Finset Nat) (channel : Chan) : Bool :=
  match channel with
  | .dm => true
  | .other cid => decide (cid ∈ reg)

/-- Source `_should_respond` (lines 99-104). -/
def should_respond (reg : Finset Nat) (m : Message) : Bool :=
  match m.channel with
  | .dm => true
  | ch => if is_allowed_channel reg ch then true else false

/-- The text of a user mention as it appears in message content. -/
def mentionText (u : ClientUser) : String := "<@" ++ natStr u.id ++ ">"

/-- Source `_clean_prompt` (lines 107-115): strip the content; when the
client user is known and is mentioned, remove the mention text and the
`@name` form, stripping after each removal. -/
def clean_prompt (clientUser : Option ClientUser) (m : Message) : String :=
  let p := trimStr m.content
  match clientUser with
  | none => p
  | some u =>
    if m.mentionsSelf then
      trimStr (replaceStr (trimStr (replaceStr p (mentionText u) "")) ("@" ++ u.name) "")
    else p

/-! ## Session keys (on_message lines 261-265) -/

/-- The derivation inputs of a session key: a DM from a user, or a
message in a guild channel. -/
inductive SessionCtx
  | dm (userId : Nat)
  | chan (guildId channelId userId : Nat)
deriving DecidableEq

/-- The session id computed at lines 261-265:
`f"dm:{author.id}"` in a DM, otherwise
`f"guild:{guild.id}:channel:{channel.id}:user:{author.id}"`. -/
def sessionKey : SessionCtx → String
  | .dm u => "dm:" ++ natStr u
  | .chan g c u =>
      "guild:" ++ natStr g ++ ":channel:" ++ natStr c ++ ":user:" ++ natStr u

/-! ## CounselingAgent session store (lines 43-72) -/

/-- A `genai.ChatSession`: its observable state is the accumulated
prompt/response history. -/
structure ChatSession where
  history : List (String × String)
deriving DecidableEq

/-- The `self._sessions` dict, a map from session id to chat session,
as an association list with unique keys. -/
def Sessions : Type := List (String × ChatSession)

instance : DecidableEq Sessions := by unfold Sessions; infer_instance

/-- Dict lookup: `self._sessions.get(session_id)`. -/
def dictGet : Sessions → String → Option ChatSession
  | [], _ => none
  | (k', v) :: rest, k => if k' = k then some v else dictGet rest k

/-- Dict deletion: `del self._sessions[session_id]` (removes the entry
for the key; with unique keys this is exactly the Python `del`). -/
def dictDel : Sessions → String → Sessions
  | [], _ => []
  | (k', v) :: rest, k => if k' = k then dictDel rest k else (k', v) :: dictDel rest k

/-- Dict assignment at an existing key: `self._sessions[k] = chat`. -/
def dictSet : Sessions → String → ChatSession → Sessions
  | [], k, v => [(k, v)]
  | (k', v') :: rest, k, v =>
      if k' = k then (k, v) :: rest else (k', v') :: dictSet rest k v

/-- `self.model.start_chat(history=[])` (line 48): a fresh handle with
empty history. -/
def freshSession : ChatSession := ⟨[]⟩

/-- Source `CounselingAgent._get_session` (lines 45-50): return the
stored handle, or create, store and return a fresh one. -/
def get_session (ss : Sessions) (session_id : String) : ChatSession × Sessions :=
  match dictGet ss session_id with
  | some chat => (chat, ss)
  | none => (freshSession, (session_id, freshSession) :: ss)

/-- Source `CounselingAgent.reset` (lines 52-54): delete the handle if
the key is present. -/
def reset (ss : Sessions) (session_id : String) : Sessions :=
  if (dictGet ss session_id).isSome then dictDel ss session_id else ss

/-- The two failure modes of `_invoke` (lines 59-64): the
`ValueError("Empty response from Gemini")` raised on a blank completion,
and any other exception from the remote call. -/
inductive GenError
  | emptyCompletion
  | upstream
deriving DecidableEq

/-- The behaviour of the remote completion service on one call: either
the transport/service raises, or it returns a response whose `.text`
may be `None`. -/
inductive RemoteOutcome
  | fault
  | ok (text : Option String)
deriving DecidableEq

/-- Source `CounselingAgent.generate` (lines 56-72): obtain (creating if
absent) the session handle, then run `_invoke` against the remote
service.  `_invoke` takes `(response.text or "").strip()` and raises on
a blank result; any exception is logged and re-raised.  On success the
remote chat session extends its history with the exchange. -/
def generate (outcome : RemoteOutcome) (ss : Sessions)
    (session_id prompt : String) : Except GenError String × Sessions :=
  let gs := get_session ss session_id
  match outcome with
  | .fault => (Except.error GenError.upstream, gs.2)
  | .ok t =>
    let text := trimStr (t.getD "")
    if text = "" then (Except.error GenError.emptyCompletion, gs.2)
    else (Except.ok text,
      dictSet gs.2 session_id ⟨gs.1.history ++ [(prompt, text)]⟩)

/-! ## Reply texts (verbatim from the source) -/

def dmCommandMsg : String := "このコマンドはサーバー内のテキストチャンネルで使ってください。"

def joinNoPermMsg : String := "権限を確認できなかったため、このチャンネルを登録できませんでした。"

def alreadyJoinedMsg : String := "すでにこのチャンネルでお話しできます。"

def joinedMsg : String := "このチャンネルでやり取りするように設定しました。よろしくお願いします。"

def leaveNoPermMsg : String := "権限を確認できなかったため、このチャンネルの登録を解除できませんでした。"

def notRegisteredMsg : String := "このチャンネルはもともと登録されていませんでした。"

def leftMsg : String := "このチャンネルでの応答を停止しました。必要になったらまた /join してくださいね。"

def emptyPromptMsg : String := "何についてお話ししますか？遠慮なく教えてくださいね。"

def resetDoneMsg : String := "会話履歴をリセットしました。いつでもお話しくださいね。"

def apologyMsg : String :=
  "ごめんなさい、今はお手伝いができないみたいです。少し時間を置いてからもう一度試してもらえると嬉しいです。"

def slashCtxMsg : String := "このコマンドはサーバー内のテキストチャンネルで実行してください。"

def slashJoinNoPermMsg : String := "チャンネルを登録する権限がありません。サーバー管理者に相談してください。"

def slashAlreadyMsg : String := "すでにこのチャンネルでお話しできるようになっています。"

def slashJoinedMsg : String := "このチャンネルでやり取りするように設定しました。よろしくお願いします。"

def slashLeaveNoPermMsg : String := "チャンネルの登録解除権限がありません。サーバー管理者に相談してください。"

def slashNotRegisteredMsg : String := "このチャンネルはもともと登録されていませんでした。"

def slashLeftMsg : String := "このチャンネルでの応答を停止しました。必要になったらまた /join してくださいね。"

/-! ## Slash command handlers (lines 137-214) -/

/-- Source slash handler `register_channel` (lines 139-174): the `/join`
command.  Returns the updated allow-list and the ephemeral reply.  The
`getattr(channel, "id", None)` fallback branch (lines 155-161) is
unreachable here because every non-DM channel object carries an id. -/
def register_channel (reg : Finset Nat) (i : Interaction) :
    Finset Nat × String :=
  match i.channel with
  | none => (reg, slashCtxMsg)
  | some .dm => (reg, slashCtxMsg)
  | some (.other cid) =>
    if hasManage i.user = false then (reg, slashJoinNoPermMsg)
    else if cid ∈ reg then (reg, slashAlreadyMsg)
    else (insert cid reg, slashJoinedMsg)

/-- Source slash handler `unregister_channel` (lines 179-214): the
`/leave` command. -/
def unregister_channel (reg : Finset Nat) (i : Interaction) :
    Finset Nat × String :=
  match i.channel with
  | none => (reg, slashCtxMsg)
  | some .dm => (reg, slashCtxMsg)
  | some (.other cid) =>
    if hasManage i.user = false then (reg, slashLeaveNoPermMsg)
    else if cid ∉ reg then (reg, slashNotRegisteredMsg)
    else (reg.erase cid, slashLeftMsg)

/-! ## Dispatcher (on_message, lines 218-285) -/

/-- One observable outbound effect of a dispatch: a channel send, a
threaded reply (`mention_author=False`), or an invocation of
`assistant.generate`. -/
inductive Event
  | send (text : String)
  | reply (text : String)
  | genCall (key : String) (prompt : String)
deriving DecidableEq

/-- The `!join` / `/join` text-command block of `on_message`
(lines 225-237). -/
def textJoin (reg : Finset Nat) (m : Message) : Finset Nat × List Event :=
  match m.channel with
  | .dm => (reg, [.send dmCommandMsg])
  | .other cid =>
    if m.guild = none ∨ hasManage m.author = false then
      (reg, [.send joinNoPermMsg])
    else if cid ∈ reg then (reg, [.send alreadyJoinedMsg])
    else (insert cid reg, [.send joinedMsg])

/-- The `!leave` / `/leave` text-command block of `on_message`
(lines 239-251). -/
def textLeave (reg : Finset Nat) (m : Message) : Finset Nat × List Event :=
  match m.channel with
  | .dm => (reg, [.send dmCommandMsg])
  | .other cid =>
    if m.guild = none ∨ hasManage m.author = false then
      (reg, [.send leaveNoPermMsg])
    else if cid ∉ reg then (reg, [.send notRegisteredMsg])
    else (reg.erase cid, [.send leftMsg])

/-- The session id computed at lines 261-265, as a function of the
message; `none` is the guild-less non-DM case, where the Python
expression `message.guild.id` raises `AttributeError`. -/
def sessionKeyOf (m : Message) : Option String :=
  match m.channel with
  | .dm => some (sessionKey (.dm m.author.id))
  | .other cid =>
    match m.guild with
    | some g => some (sessionKey (.chan g cid m.author.id))
    | none => none

/-- Source `on_message` (lines 218-285).  Inputs: the logged-in client
user, the behaviour of the remote service on this call, the current
allow-list, the current session store, and the message.  Output: the
new allow-list, the new session store, and the trace of outbound
effects — or `none` where the handler would raise an uncaught
exception. -/
def onMessage (cu : Option ClientUser) (outcome : RemoteOutcome)
    (reg : Finset Nat) (ss : Sessions) (m : Message) :
    Option (Finset Nat × Sessions × List Event) :=
  if m.author.bot then some (reg, ss, [])
  else
    let raw_prompt := clean_prompt cu m
    let command := lowerStr raw_prompt
    if command = "!join" ∨ command = "/join" then
      let r := textJoin reg m
      some (r.1, ss, r.2)
    else if command = "!leave" ∨ command = "/leave" then
      let r := textLeave reg m
      some (r.1, ss, r.2)
    else if should_respond reg m = false then some (reg, ss, [])
    else if raw_prompt = "" then some (reg, ss, [.send emptyPromptMsg])
    else
      match sessionKeyOf m with
      | none => none
      | some key =>
        if lowerStr raw_prompt = "!reset" ∨ lowerStr raw_prompt = "reset" ∨
            lowerStr raw_prompt = "リセット" then
          some (reg, reset ss key, [.send resetDoneMsg])
        else
          match generate outcome ss key raw_prompt with
          | (.error _, ss') =>
            some (reg, ss', [.genCall key raw_prompt, .send apologyMsg])
          | (.ok replyText, ss') =>
            match m.channel with
            | .dm => some (reg, ss', [.genCall key raw_prompt, .send replyText])
            | .other _ => some (reg, ss', [.genCall key raw_prompt, .reply replyText])

/-! ## Command classification -/

/-- The command classes a normalized body can fall into. -/
inductive Classified
  | register
  | deregister
  | resetCmd
  | empty
  | gen (prompt : String)
deriving DecidableEq

/-- Classification of a normalized body as `on_message` performs it —
the body-driven branch order of lines 225, 239, 257 and 267:
registration tokens, deregistration tokens, the empty body, the reset
tokens, and otherwise a generation request carrying the body before
lower-casing. -/
def classify (body : String) : Classified :=
  if lowerStr body = "!join" ∨ lowerStr body = "/join" then .register
  else if lowerStr body = "!leave" ∨ lowerStr body = "/leave" then .deregister
  else if body = "" then .empty
  else if lowerStr body = "!reset" ∨ lowerStr body = "reset" ∨
      lowerStr body = "リセット" then .resetCmd
  else .gen body

/-- Modelled from the spec (section 4.2): classification in the spec's
stated priority order — registration, deregistration, reset, empty,
generation — with token matching on the case-folded body and the
generation prompt keeping the original (pre-lower-casing) body. -/
def classifySpec (body : String) : Classified :=
  if lowerStr body = "!join" ∨ lowerStr body = "/join" then .register
  else if lowerStr body = "!leave" ∨ lowerStr body = "/leave" then .deregister
  else if lowerStr body = "!reset" ∨ lowerStr body = "reset" ∨
      lowerStr body = "リセット" then .resetCmd
  else if body = "" then .empty
  else .gen body

/-! ## Concurrency model of generate (lines 56-72)

`discord.py` dispatches each `on_message` event as its own asyncio task
on one event loop.  A task that reaches `assistant.generate` runs the
synchronous `_get_session` prefix, then suspends at
`await asyncio.to_thread(_invoke)` while the remote call executes in a
worker thread; the event loop is then free to run any other task.  No
lock of any kind is taken. -/

/-- Execution phase of one dispatched generation: `ready` — the task has
reached the `assistant.generate` call; `inFlight` — `_get_session` ran
and the remote call is executing in a worker thread; `done` — the
remote call returned. -/
inductive Phase
  | ready
  | inFlight
  | done
deriving DecidableEq

/-- One dispatched generation task, tagged with its session key. -/
structure GenTask where
  key : String
  phase : Phase
deriving DecidableEq

/-- One scheduler step.  `start` is the event loop running a ready task
up to its suspension point: `generate` takes no per-key lock before
`await asyncio.to_thread(_invoke)`, so the step is enabled regardless of
the phases of every other task — in particular while another task with
the same key is already in flight.  `finish` is a worker thread
completing its remote call. -/
inductive GenStep : List GenTask → List GenTask → Prop
  | start (pre post : List GenTask) (k : String) :
      GenStep (pre ++ ⟨k, .ready⟩ :: post) (pre ++ ⟨k, .inFlight⟩ :: post)
  | finish (pre post : List GenTask) (k : String) :
      GenStep (pre ++ ⟨k, .inFlight⟩ :: post) (pre ++ ⟨k, .done⟩ :: post)

/-- Reachability under scheduler steps. -/
inductive Reachable : List GenTask → List GenTask → Prop
  | refl (s : List GenTask) : Reachable s s
  | step {s t u : List GenTask} : Reachable s t → GenStep t u → Reachable s u

/-- Whether a task's generation call is currently executing. -/
def isInFlight : GenTask → Bool
  | ⟨_, .inFlight⟩ => true
  | _ => false

/-- The session keys whose generation calls are currently executing. -/
def keysInFlight (s : List GenTask) : List String :=
  (s.filter isInFlight).map GenTask.key

/-- Duplicate test on a list of keys. -/
def hasDup : List String → Bool
  | [] => false
  | k :: rest => rest.contains k || hasDup rest

/-- The single-flight discipline the spec asserts: no two
currently-executing generation calls share a session key. -/
def singleFlight (s : List GenTask) : Bool := !hasDup (keysInFlight s)

/-! ## Decimal-rendering lemmas -/

theorem natCharsAux_zero (f : Nat) : natCharsAux f 0 = [] := by
  cases f <;> simp [natCharsAux]

theorem natCharsAux_fuel (f : Nat) : ∀ g n, n ≤ f → n ≤ g →
    natCharsAux f n = natCharsAux g n := by
  induction f with
  | zero => intro g n hf _; interval_cases n; rw [natCharsAux_zero, natCharsAux_zero]
  | succ f ih =>
    intro g n hf hg
    by_cases hn : n = 0
    · subst hn; rw [natCharsAux_zero, natCharsAux_zero]
    · obtain ⟨g', rfl⟩ : ∃ g', g = g' + 1 := by
        cases g with
        | zero => omega
        | succ g' => exact ⟨g', rfl⟩
      have hq : n / 10 < n := Nat.div_lt_self (Nat.pos_of_ne_zero hn) (by norm_num)
      simp only [natCharsAux, if_neg hn]
      rw [ih g' (n / 10) (by omega) (by omega)]

theorem natChars_pos (n : Nat) (hn : n ≠ 0) :
    natChars n = natChars (n / 10) ++ [Nat.digitChar (n % 10)] := by
  have hq : n / 10 < n := Nat.div_lt_self (Nat.pos_of_ne_zero hn) (by norm_num)
  obtain ⟨m, rfl⟩ : ∃ m, n = m + 1 := by
    cases n with
    | zero => exact absurd rfl hn
    | succ m => exact ⟨m, rfl⟩
  show natCharsAux (m + 1) (m + 1) = _
  simp only [natCharsAux, if_neg hn]
  rw [natCharsAux_fuel m ((m + 1) / 10) ((m + 1) / 10) (by omega) (le_refl _)]
  rfl

theorem natChars_eq_nil_iff (n : Nat) : natChars n = [] ↔ n = 0 := by
  constructor
  · intro h
    by_contra hn
    rw [natChars_pos n hn] at h
    simp at h
  · intro h; subst h; exact natCharsAux_zero 0

theorem digitChar_inj : ∀ a < 10, ∀ b < 10,
    Nat.digitChar a = Nat.digitChar b → a = b := by decide

theorem digitChar_ne_colon : ∀ a < 10, Nat.digitChar a ≠ ':' := by decide

theorem natChars_mem_digit (n : Nat) : ∀ c ∈ natChars n,
    ∃ d, d < 10 ∧ c = Nat.digitChar d := by
  induction n using Nat.strong_induction_on with
  | _ n ih =>
    intro c hc
    by_cases hn : n = 0
    · subst hn; rw [(natChars_eq_nil_iff 0).mpr rfl] at hc; cases hc
    · rw [natChars_pos n hn] at hc
      rcases List.mem_append.mp hc with h | h
      · exact ih (n / 10) (Nat.div_lt_self (Nat.pos_of_ne_zero hn) (by norm_num)) c h
      · rcases List.mem_singleton.mp h with rfl
        exact ⟨n % 10, Nat.mod_lt n (by norm_num), rfl⟩

theorem snoc_inj {a b : List Char} {c d : Char} (h : a ++ [c] = b ++ [d]) :
    a = b ∧ c = d := by
  have h2 := congrArg List.reverse h
  simp at h2
  exact ⟨h2.2, h2.1⟩

theorem natChars_inj : ∀ m, ∀ n, m ≠ 0 → n ≠ 0 →
    natChars m = natChars n → m = n := by
  intro m
  induction m using Nat.strong_induction_on with
  | _ m ih =>
    intro n hm hn h
    rw [natChars_pos m hm, natChars_pos n hn] at h
    obtain ⟨hq, hd⟩ := snoc_inj h
    have hmod : m % 10 = n % 10 :=
      digitChar_inj _ (Nat.mod_lt m (by norm_num)) _ (Nat.mod_lt n (by norm_num)) hd
    by_cases hq0 : m / 10 = 0
    · have hn0 : n / 10 = 0 := by
        by_contra hc
        rw [hq0, (natChars_eq_nil_iff 0).mpr rfl] at hq
        exact hc ((natChars_eq_nil_iff (n / 10)).mp hq.symm)
      omega
    · have hn0 : n / 10 ≠ 0 := by
        intro hc
        rw [hc, (natChars_eq_nil_iff 0).mpr rfl] at hq
        exact hq0 ((natChars_eq_nil_iff (m / 10)).mp hq)
      have := ih (m / 10) (Nat.div_lt_self (Nat.pos_of_ne_zero hm) (by norm_num))
        (n / 10) hq0 hn0 hq
      omega

theorem natStr_no_colon (n : Nat) : ':' ∉ (natStr n).data := by
  unfold natStr
  by_cases hn : n = 0
  · rw [if_pos hn]; decide
  · simp only [if_neg hn]
    intro hc
    obtain ⟨d, hd, hcd⟩ := natChars_mem_digit n ':' hc
    exact digitChar_ne_colon d hd hcd.symm

theorem natStr_data_inj {m n : Nat} (h : (natStr m).data = (natStr n).data) :
    m = n := by
  unfold natStr at h
  by_cases hm : m = 0 <;> by_cases hn : n = 0
  · omega
  · exfalso
    simp only [if_pos hm, if_neg hn] at h
    rw [natChars_pos n hn] at h
    obtain ⟨hq, hd⟩ := snoc_inj (b := ([] : List Char)) (d := '0') (by simpa using h.symm)
    have h1 : n / 10 = 0 := (natChars_eq_nil_iff (n / 10)).mp hq
    have h2 : n % 10 = 0 :=
      digitChar_inj _ (Nat.mod_lt n (by norm_num)) 0 (by norm_num) (by rw [hd]; decide)
    omega
  · exfalso
    simp only [if_neg hm, if_pos hn] at h
    rw [natChars_pos m hm] at h
    obtain ⟨hq, hd⟩ := snoc_inj (b := ([] : List Char)) (d := '0') (by simpa using h)
    have h1 : m / 10 = 0 := (natChars_eq_nil_iff (m / 10)).mp hq
    have h2 : m % 10 = 0 :=
      digitChar_inj _ (Nat.mod_lt m (by norm_num)) 0 (by norm_num) (by rw [hd]; decide)
    omega
  · simp only [if_neg hm, if_neg hn] at h
    exact natChars_inj m n hm hn h

/-! ## Session-key lemmas -/

theorem noColon_append_inj (xs : List Char) : ∀ (xs' ys ys' : List Char),
    ':' ∉ xs → ':' ∉ xs' → xs ++ ':' :: ys = xs' ++ ':' :: ys' →
    xs = xs' ∧ ys = ys' := by
  induction xs with
  | nil =>
    intro xs' ys ys' _ hx' h
    cases xs' with
    | nil => simpa using h
    | cons b bs =>
      rw [List.nil_append, List.cons_append] at h
      injection h with hc _
      subst hc
      exact absurd (List.mem_cons_self _ _) hx'
  | cons a as ih =>
    intro xs' ys ys' hx hx' h
    cases xs' with
    | nil =>
      rw [List.cons_append, List.nil_append] at h
      injection h with hc _
      rw [hc] at hx
      exact absurd (List.mem_cons_self _ _) hx
    | cons b bs =>
      rw [List.cons_append, List.cons_append] at h
      injection h with hc ht
      subst hc
      have hx2 : ':' ∉ as := fun hm => hx (List.mem_cons_of_mem _ hm)
      have hx2' : ':' ∉ bs := fun hm => hx' (List.mem_cons_of_mem _ hm)
      obtain ⟨h1, h2⟩ := ih bs ys ys' hx2 hx2' ht
      exact ⟨by rw [h1], h2⟩

theorem sessionKey_inj : Function.Injective sessionKey := by
  intro a b h
  cases a with
  | dm u =>
    cases b with
    | dm v =>
      have hd := congrArg String.data h
      simp only [sessionKey, String.data_append] at hd
      rw [show u = v from natStr_data_inj (List.append_cancel_left hd)]
    | chan g c v =>
      exfalso
      have hd := congrArg String.data h
      simp only [sessionKey, String.data_append, List.append_assoc,
        List.cons_append, List.nil_append] at hd
      injection hd with hc _
      exact absurd hc (by decide)
  | chan g c u =>
    cases b with
    | dm v =>
      exfalso
      have hd := congrArg String.data h
      simp only [sessionKey, String.data_append, List.append_assoc,
        List.cons_append, List.nil_append] at hd
      injection hd with hc _
      exact absurd hc (by decide)
    | chan g' c' u' =>
      have hd := congrArg String.data h
      simp only [sessionKey, String.data_append, List.append_assoc,
        List.cons_append, List.nil_append] at hd
      simp only [List.cons.injEq, eq_self_iff_true, true_and] at hd
      obtain ⟨hg, hrest⟩ := noColon_append_inj _ _ _ _
        (natStr_no_colon g) (natStr_no_colon g') hd
      simp only [List.cons.injEq, eq_self_iff_true, true_and] at hrest
      obtain ⟨hc2, hrest3⟩ := noColon_append_inj _ _ _ _
        (natStr_no_colon c) (natStr_no_colon c') hrest
      simp only [List.cons.injEq, eq_self_iff_true, true_and] at hrest3
      rw [show g = g' from natStr_data_inj hg,
        show c = c' from natStr_data_inj hc2,
        show u = u' from natStr_data_inj hrest3]

/-! ## Session-store helper lemmas -/

theorem dictGet_dictDel (ss : Sessions) (k : String) :
    dictGet (dictDel ss k) k = none := by
  induction ss with
  | nil => rfl
  | cons p rest ih =>
    obtain ⟨k', v⟩ := p
    by_cases hk : k' = k
    · simp [dictDel, hk, ih]
    · simp [dictDel, dictGet, hk, ih]

theorem dictDel_absent (ss : Sessions) (k : String)
    (h : dictGet ss k = none) : dictDel ss k = ss := by
  induction ss with
  | nil => rfl
  | cons p rest ih =>
    obtain ⟨k', v⟩ := p
    by_cases hk : k' = k
    · simp [dictGet, hk] at h
    · simp [dictGet, hk] at h
      simp [dictDel, hk, ih h]

theorem dictGet_reset (ss : Sessions) (k : String) :
    dictGet (reset ss k) k = none := by
  unfold reset
  rcases h : dictGet ss k with _ | v
  · simp [h]
  · simp [h, dictGet_dictDel]

/-! ## Claim theorems -/

/-- C2: `_is_allowed_channel` returns true unconditionally for a direct
conversation, whatever the registry contains, and for every other
channel it returns true exactly when the channel's id is currently a
member of the registry. -/
theorem is_allowed_channel_correct (reg : Finset Nat) :
    is_allowed_channel reg Chan.dm = true ∧
    ∀ cid : Nat, (is_allowed_channel reg (Chan.other cid) = true ↔ cid ∈ reg) :=
  ⟨rfl, fun cid => by simp [is_allowed_channel]⟩

/-- C5: session-key derivation is a pure deterministic function giving
`dm:<u>` for a direct conversation and
`guild:<g>:channel:<c>:user:<u>` for a channel conversation, and it is
injective: inputs differing in user, channel or guild never collide. -/
theorem sessionKey_pure_injective :
    (∀ u, sessionKey (.dm u) = "dm:" ++ natStr u) ∧
    (∀ g c u, sessionKey (.chan g c u) =
      "guild:" ++ natStr g ++ ":channel:" ++ natStr c ++ ":user:" ++ natStr u) ∧
    Function.Injective sessionKey :=
  ⟨fun _ => rfl, fun _ _ _ => rfl, sessionKey_inj⟩

/-- Witness for `sessionKey_pure_injective` at a concrete input. -/
theorem sessionKey_pure_injective_witness :
    SessionCtx.chan 1 2 3 = SessionCtx.chan 1 2 3 :=
  sessionKey_pure_injective.2.2 rfl

/-- C4: the dispatcher's body classification agrees everywhere with the
spec's fixed priority order (registration, deregistration, reset, empty,
generation), with command tokens matched on the case-folded body and the
generation prompt keeping the original casing. -/
theorem classify_follows_spec_priority (body : String) :
    classify body = classifySpec body := by
  by_cases hb : body = ""
  · subst hb; decide
  · unfold classify classifySpec
    by_cases h1 : lowerStr body = "!join" ∨ lowerStr body = "/join"
    · simp only [if_pos h1]
    · simp only [if_neg h1]
      by_cases h2 : lowerStr body = "!leave" ∨ lowerStr body = "/leave"
      · simp only [if_pos h2]
      · simp only [if_neg h2]
        by_cases h3 : lowerStr body = "!reset" ∨ lowerStr body = "reset" ∨
            lowerStr body = "リセット"
        · simp only [if_pos h3, if_neg hb]
        · simp only [if_neg h3, if_neg hb]

/-- C9: reset is idempotent — resetting an absent key is a no-op and no
error, resetting twice equals resetting once and leaves no residual
handle, and the next lookup for the key yields a fresh handle with
empty history. -/
theorem reset_idempotent_no_residual (ss : Sessions) (k : String) :
    (dictGet ss k = none → reset ss k = ss) ∧
    reset (reset ss k) k = reset ss k ∧
    dictGet (reset ss k) k = none ∧
    get_session (reset ss k) k =
      (freshSession, (k, freshSession) :: reset ss k) ∧
    freshSession.history = [] := by
  refine ⟨fun h => ?_, ?_, dictGet_reset ss k, ?_, rfl⟩
  · unfold reset; simp [h]
  · have h := dictGet_reset ss k
    rw [reset, h]
    simp
  · simp [get_session, dictGet_reset ss k]

/-- Witness for `reset_idempotent_no_residual`: the hypothesis of its
first conjunct discharged at a concrete input. -/
theorem reset_idempotent_no_residual_witness :
    reset ([] : Sessions) "dm:1" = [] :=
  (reset_idempotent_no_residual [] "dm:1").1 rfl

/-- C3: a non-bot message that is not a registration or deregistration
command and arrives in a non-direct channel whose id is not in the
registry is dropped silently: no send, no reply, no generation call, no
state change. -/
theorem silent_drop_unregistered (cu : Option ClientUser)
    (outcome : RemoteOutcome) (reg : Finset Nat) (ss : Sessions)
    (m : Message) (cid : Nat)
    (hbot : m.author.bot = false)
    (hch : m.channel = Chan.other cid)
    (hreg : cid ∉ reg)
    (hj : ¬(lowerStr (clean_prompt cu m) = "!join" ∨
      lowerStr (clean_prompt cu m) = "/join"))
    (hl : ¬(lowerStr (clean_prompt cu m) = "!leave" ∨
      lowerStr (clean_prompt cu m) = "/leave")) :
    onMessage cu outcome reg ss m = some (reg, ss, []) := by
  have hsr : should_respond reg m = false := by
    simp [should_respond, hch, is_allowed_channel, hreg]
  simp [onMessage, hbot, hj, hl, hsr]

/-- Witness for `silent_drop_unregistered` at a concrete input. -/
theorem silent_drop_unregistered_witness :
    onMessage none RemoteOutcome.fault ∅ []
      ⟨⟨false, 7, none⟩, Chan.other 5, some 2, "hello", false⟩ =
      some (∅, [], []) :=
  silent_drop_unregistered none RemoteOutcome.fault ∅ []
    ⟨⟨false, 7, none⟩, Chan.other 5, some 2, "hello", false⟩ 5
    rfl rfl (by decide) (by decide) (by decide)

/-- C6: every unsuccessful registration or deregistration attempt — on
either command surface: actor without channel-management privilege,
command in a direct conversation, target already registered (register)
or not registered (deregister) — leaves the registry unchanged and
produces the specific reply for its failure cause; within each handler
the failure replies are pairwise distinct and none of them is the
generic apology. -/
theorem failed_commands_keep_registry_specific_reply :
    (∀ reg u, register_channel reg ⟨none, u⟩ = (reg, slashCtxMsg)) ∧
    (∀ reg u, register_channel reg ⟨some Chan.dm, u⟩ = (reg, slashCtxMsg)) ∧
    (∀ reg u cid, hasManage u = false →
      register_channel reg ⟨some (Chan.other cid), u⟩ = (reg, slashJoinNoPermMsg)) ∧
    (∀ reg u cid, hasManage u = true → cid ∈ reg →
      register_channel reg ⟨some (Chan.other cid), u⟩ = (reg, slashAlreadyMsg)) ∧
    (∀ reg u, unregister_channel reg ⟨none, u⟩ = (reg, slashCtxMsg)) ∧
    (∀ reg u, unregister_channel reg ⟨some Chan.dm, u⟩ = (reg, slashCtxMsg)) ∧
    (∀ reg u cid, hasManage u = false →
      unregister_channel reg ⟨some (Chan.other cid), u⟩ = (reg, slashLeaveNoPermMsg)) ∧
    (∀ reg u cid, hasManage u = true → cid ∉ reg →
      unregister_channel reg ⟨some (Chan.other cid), u⟩ = (reg, slashNotRegisteredMsg)) ∧
    (∀ reg m, m.channel = Chan.dm →
      textJoin reg m = (reg, [.send dmCommandMsg])) ∧
    (∀ reg m cid, m.channel = Chan.other cid →
      (m.guild = none ∨ hasManage m.author = false) →
      textJoin reg m = (reg, [.send joinNoPermMsg])) ∧
    (∀ reg m cid, m.channel = Chan.other cid → m.guild ≠ none →
      hasManage m.author = true → cid ∈ reg →
      textJoin reg m = (reg, [.send alreadyJoinedMsg])) ∧
    (∀ reg m, m.channel = Chan.dm →
      textLeave reg m = (reg, [.send dmCommandMsg])) ∧
    (∀ reg m cid, m.channel = Chan.other cid →
      (m.guild = none ∨ hasManage m.author = false) →
      textLeave reg m = (reg, [.send leaveNoPermMsg])) ∧
    (∀ reg m cid, m.channel = Chan.other cid → m.guild ≠ none →
      hasManage m.author = true → cid ∉ reg →
      textLeave reg m = (reg, [.send notRegisteredMsg])) ∧
    (slashCtxMsg ≠ slashJoinNoPermMsg ∧ slashCtxMsg ≠ slashAlreadyMsg ∧
      slashJoinNoPermMsg ≠ slashAlreadyMsg ∧
      slashCtxMsg ≠ slashLeaveNoPermMsg ∧ slashCtxMsg ≠ slashNotRegisteredMsg ∧
      slashLeaveNoPermMsg ≠ slashNotRegisteredMsg ∧
      dmCommandMsg ≠ joinNoPermMsg ∧ dmCommandMsg ≠ alreadyJoinedMsg ∧
      joinNoPermMsg ≠ alreadyJoinedMsg ∧
      dmCommandMsg ≠ leaveNoPermMsg ∧ dmCommandMsg ≠ notRegisteredMsg ∧
      leaveNoPermMsg ≠ notRegisteredMsg ∧
      slashCtxMsg ≠ apologyMsg ∧ slashJoinNoPermMsg ≠ apologyMsg ∧
      slashAlreadyMsg ≠ apologyMsg ∧ slashLeaveNoPermMsg ≠ apologyMsg ∧
      slashNotRegisteredMsg ≠ apologyMsg ∧ dmCommandMsg ≠ apologyMsg ∧
      joinNoPermMsg ≠ apologyMsg ∧ alreadyJoinedMsg ≠ apologyMsg ∧
      leaveNoPermMsg ≠ apologyMsg ∧ notRegisteredMsg ≠ apologyMsg) := by
  refine ⟨fun reg u => rfl, fun reg u => rfl, ?_, ?_, fun reg u => rfl,
    fun reg u => rfl, ?_, ?_, ?_, ?_, ?_, ?_, ?_, ?_, by decide⟩
  · intro reg u cid hm; simp [register_channel, hm]
  · intro reg u cid hm hmem; simp [register_channel, hm, hmem]
  · intro reg u cid hm; simp [unregister_channel, hm]
  · intro reg u cid hm hmem; simp [unregister_channel, hm, hmem]
  · intro reg m hch; simp [textJoin, hch]
  · intro reg m cid hch hcond
    simp only [textJoin, hch, if_pos hcond]
  · intro reg m cid hch hg hm hmem
    simp [textJoin, hch, hg, hm, hmem]
  · intro reg m hch; simp [textLeave, hch]
  · intro reg m cid hch hcond
    simp only [textLeave, hch, if_pos hcond]
  · intro reg m cid hch hg hm hmem
    simp [textLeave, hch, hg, hm, hmem]

/-- Witness for `failed_commands_keep_registry_specific_reply`: the
unprivileged `/join` attempt at a concrete input. -/
theorem failed_commands_keep_registry_specific_reply_witness :
    register_channel ∅ ⟨some (Chan.other 5), ⟨false, 1, none⟩⟩ =
      (∅, slashJoinNoPermMsg) :=
  failed_commands_keep_registry_specific_reply.2.2.1 ∅ ⟨false, 1, none⟩ 5 rfl

/-- C7 counterexample: with identical actor privilege
(`manage_channels` true, so `_has_manage_channels` is true on both
paths), identical channel kind and identifier (a non-direct channel with
id 1) and identical prior registry (empty), the slash handler inserts
the channel while the plain-text handler refuses — because the message's
`guild` is `None`, a condition only the text path checks. -/
theorem slash_text_divergence_cex :
    hasManage ⟨false, 1, some ⟨true⟩⟩ = true ∧
    (register_channel ∅ ⟨some (Chan.other 1), ⟨false, 1, some ⟨true⟩⟩⟩).1 =
      ({1} : Finset Nat) ∧
    (textJoin ∅
      ⟨⟨false, 1, some ⟨true⟩⟩, Chan.other 1, none, "/join", false⟩).1 = ∅ ∧
    ({1} : Finset Nat) ≠ (∅ : Finset Nat) := by decide

/-- C7 (amended): the slash and plain-text registration and
deregistration paths produce identical access-control effects whenever
the message's channel belongs to a guild, and in direct conversations,
where neither path mutates the registry; they can diverge only on a
guild-less non-direct message. -/
theorem slash_text_agree_on_guild_channels (reg : Finset Nat) (a : Author)
    (cid g : Nat) (content : String) (ms : Bool) :
    (register_channel reg ⟨some (Chan.other cid), a⟩).1 =
      (textJoin reg ⟨a, Chan.other cid, some g, content, ms⟩).1 ∧
    (unregister_channel reg ⟨some (Chan.other cid), a⟩).1 =
      (textLeave reg ⟨a, Chan.other cid, some g, content, ms⟩).1 ∧
    (register_channel reg ⟨some Chan.dm, a⟩).1 =
      (textJoin reg ⟨a, Chan.dm, some g, content, ms⟩).1 ∧
    (unregister_channel reg ⟨some Chan.dm, a⟩).1 =
      (textLeave reg ⟨a, Chan.dm, some g, content, ms⟩).1 := by
  refine ⟨?_, ?_, rfl, rfl⟩ <;>
    cases hm : hasManage a <;>
      by_cases hmem : cid ∈ reg <;>
        simp [register_channel, unregister_channel, textJoin, textLeave, hm, hmem]

/-- C8: a blank remote completion is a hard failure of `_invoke` rather
than a returned blank text, and on every generation failure — blank
completion or upstream fault — the dispatcher emits exactly the fixed
generic apologetic reply, which is non-empty and carries no error
detail. -/
theorem generation_failures_masked :
    (∀ (ss : Sessions) (k p : String) (t : Option String),
      trimStr (t.getD "") = "" →
      (generate (.ok t) ss k p).1 = Except.error GenError.emptyCompletion) ∧
    (∀ (cu : Option ClientUser) (outcome : RemoteOutcome) (reg : Finset Nat)
      (ss : Sessions) (m : Message) (key : String) (e : GenError),
      m.author.bot = false →
      ¬(lowerStr (clean_prompt cu m) = "!join" ∨
        lowerStr (clean_prompt cu m) = "/join") →
      ¬(lowerStr (clean_prompt cu m) = "!leave" ∨
        lowerStr (clean_prompt cu m) = "/leave") →
      should_respond reg m = true →
      clean_prompt cu m ≠ "" →
      ¬(lowerStr (clean_prompt cu m) = "!reset" ∨
        lowerStr (clean_prompt cu m) = "reset" ∨
        lowerStr (clean_prompt cu m) = "リセット") →
      sessionKeyOf m = some key →
      (generate outcome ss key (clean_prompt cu m)).1 = Except.error e →
      onMessage cu outcome reg ss m =
        some (reg, (generate outcome ss key (clean_prompt cu m)).2,
          [Event.genCall key (clean_prompt cu m), Event.send apologyMsg])) ∧
    apologyMsg ≠ "" := by
  refine ⟨?_, ?_, by decide⟩
  · intro ss k p t ht
    simp [generate, ht]
  · intro cu outcome reg ss m key e hbot hj hl hsr hne hrst hsk hg
    rcases hgen : generate outcome ss key (clean_prompt cu m) with ⟨r, ss2⟩
    rw [hgen] at hg
    simp only at hg
    subst hg
    simp [onMessage, hbot, hj, hl, hsr, hne, hrst, hsk, hgen]

/-- Witness for `generation_failures_masked`: the blank-completion case
and the dispatcher case at concrete inputs. -/
theorem generation_failures_masked_witness :
    (generate (.ok (some " ")) [] "k" "p").1 =
      Except.error GenError.emptyCompletion ∧
    onMessage none RemoteOutcome.fault ∅ []
      ⟨⟨false, 1, none⟩, Chan.dm, none, "hello", false⟩ =
      some (∅,
        (generate RemoteOutcome.fault [] "dm:1"
          (clean_prompt none ⟨⟨false, 1, none⟩, Chan.dm, none, "hello", false⟩)).2,
        [Event.genCall "dm:1"
          (clean_prompt none ⟨⟨false, 1, none⟩, Chan.dm, none, "hello", false⟩),
          Event.send apologyMsg]) :=
  ⟨generation_failures_masked.1 [] "k" "p" (some " ") (by decide),
    generation_failures_masked.2.1 none RemoteOutcome.fault ∅ []
      ⟨⟨false, 1, none⟩, Chan.dm, none, "hello", false⟩ "dm:1" GenError.upstream
      rfl (by decide) (by decide) rfl (by decide) (by decide) (by decide)
      rfl⟩

/-- C10: generate creates and stores the session handle before invoking
the remote service, so a failed call is not rolled back: the handle
stays in the store and a later lookup returns exactly that handle
without creating a new one. -/
theorem failed_generate_keeps_handle (outcome : RemoteOutcome)
    (ss : Sessions) (k p : String) (e : GenError)
    (habs : dictGet ss k = none)
    (hfail : (generate outcome ss k p).1 = Except.error e) :
    (generate outcome ss k p).2 = (k, freshSession) :: ss ∧
    dictGet ((generate outcome ss k p).2) k = some freshSession ∧
    get_session ((generate outcome ss k p).2) k =
      (freshSession, (generate outcome ss k p).2) := by
  have hgs : get_session ss k = (freshSession, (k, freshSession) :: ss) := by
    simp [get_session, habs]
  have h2 : (generate outcome ss k p).2 = (k, freshSession) :: ss := by
    cases outcome with
    | fault => simp [generate, hgs]
    | ok t =>
      by_cases ht : trimStr (t.getD "") = ""
      · simp [generate, hgs, ht]
      · exfalso
        simp [generate, hgs, ht] at hfail
  refine ⟨h2, ?_, ?_⟩
  · rw [h2]; simp [dictGet]
  · rw [h2]; simp [get_session, dictGet]

/-- Witness for `failed_generate_keeps_handle` at a concrete input. -/
theorem failed_generate_keeps_handle_witness :
    (generate RemoteOutcome.fault [] "k" "p").2 = [("k", freshSession)] ∧
    dictGet ((generate RemoteOutcome.fault [] "k" "p").2) "k" =
      some freshSession ∧
    get_session ((generate RemoteOutcome.fault [] "k" "p").2) "k" =
      (freshSession, (generate RemoteOutcome.fault [] "k" "p").2) :=
  failed_generate_keeps_handle RemoteOutcome.fault [] "k" "p"
    GenError.upstream rfl rfl

/-- C1 counterexample: from a state with two pending dispatches for the
same session key, the scheduler reaches a state in which both generation
calls execute at once — the second call neither queues behind the first
nor fails fast, so single-flight is violated. -/
theorem overlapping_generation_reachable_cex :
    Reachable [⟨"dm:1", .ready⟩, ⟨"dm:1", .ready⟩]
      [⟨"dm:1", .inFlight⟩, ⟨"dm:1", .inFlight⟩] ∧
    singleFlight [⟨"dm:1", .inFlight⟩, ⟨"dm:1", .inFlight⟩] = false := by
  constructor
  · exact Reachable.step
      (Reachable.step (Reachable.refl _)
        (GenStep.start [] [⟨"dm:1", .ready⟩] "dm:1"))
      (GenStep.start [⟨"dm:1", .inFlight⟩] [] "dm:1")
  · decide

/-- C1 (amended): generate acquires no per-key lock, so for every
session key, while one generation call is outstanding a second call for
the same key starts immediately and both run concurrently against the
same conversation handle — the single-flight discipline does not hold. -/
theorem generate_unserialized_overlap (k : String) :
    Reachable [⟨k, .ready⟩, ⟨k, .ready⟩] [⟨k, .inFlight⟩, ⟨k, .inFlight⟩] ∧
    singleFlight [⟨k, .inFlight⟩, ⟨k, .inFlight⟩] = false := by
  constructor
  · exact Reachable.step
      (Reachable.step (Reachable.refl _) (GenStep.start [] [⟨k, .ready⟩] k))
      (GenStep.start [⟨k, .inFlight⟩] [] k)
  · simp [singleFlight, keysInFlight, isInFlight, hasDup]

end MindCore
